import Mathlib

/-!
Shallow embedding of the llamacpp-qdrant-rust-example ingestion pipeline.

The Rust sources embedded here are:
 - src/clients/mod.rs           (Document, Metadata, EmbedRequest, EmbedResponse)
 - src/clients/vector_store/qdrant.rs  (Qlient, push, document_to_pointstruct)
 - src/clients/llm/llama_cpp.rs (Status, LlamaCpp.embed)
 - src/main.rs                  (main, await_llama, vector_upsert_loop, read_documents)

Modelling conventions:
 - f32 and f64 are abstract element types (type parameters); the lossy
   narrowing `f as f32` is an abstract function narrow : F64 to F32 supplied
   as a parameter, since no claim depends on floating-point arithmetic.
 - A VecDeque is a List whose head is the deque front (push_front = cons;
   drain(0..) and into_iter traverse front to back = the list order).
 - External effects (the qdrant upsert RPC, freshly generated UUIDv4
   strings, serde parsing of response bodies and input lines) are supplied
   as explicit oracle parameters; the functions themselves are translated
   from the source.
 - Result is modelled by Except Unit / small result inductives; the
   question mark operator becomes explicit error propagation.
-/

/-- Metadata of a document, from src/clients/mod.rs. -/
structure Metadata where
  source : String
  content_type : String
  language : String
deriving DecidableEq, Repr

/-- A document with optional embedding vector, from src/clients/mod.rs.
F32 is the abstract element type standing for f32. -/
structure Document (F32 : Type) where
  page_content : String
  metadata : Metadata
  embeddings : List F32
deriving DecidableEq, Repr

/-- The Into impl for Metadata in src/clients/mod.rs: a three-entry map
from field name to scalar value (modelled as an association list in
insertion order). -/
def metadata_into_payload (m : Metadata) : List (String × String) :=
  [("source", m.source), ("content_type", m.content_type), ("language", m.language)]

/-- PointId with the Uuid option, from qdrant.rs usage. -/
structure PointId where
  uuid : String
deriving DecidableEq, Repr

/-- A qdrant point, shaped as built by document_to_pointstruct in qdrant.rs. -/
structure PointStruct (F32 : Type) where
  id : Option PointId
  payload : List (String × String)
  vector : List F32
deriving DecidableEq, Repr

/-- document_to_pointstruct from qdrant.rs: wraps the given uuid as the
point id, converts the metadata into the payload map, and carries the
document embeddings as the vector data. -/
def document_to_pointstruct {F32 : Type} (uuid : String) (d : Document F32) : PointStruct F32 :=
  { id := some ⟨uuid⟩
    payload := metadata_into_payload d.metadata
    vector := d.embeddings }

/-- DEFAULT_BUFFER_SIZE from qdrant.rs. -/
def DEFAULT_BUFFER_SIZE : Nat := 128

/-- The mutable state of Qlient from qdrant.rs (the network handle, the
collection name and the upsert parameters carried alongside are not part
of any claim; buffer head = VecDeque front). -/
structure Qlient (F32 : Type) where
  buffer : List (PointStruct F32)
  size : Nat
deriving DecidableEq, Repr

/-- The initial Qlient state built by the Default impl in qdrant.rs:
an empty buffer with capacity DEFAULT_BUFFER_SIZE. -/
def Qlient.defaultState (F32 : Type) : Qlient F32 :=
  { buffer := [], size := DEFAULT_BUFFER_SIZE }

/-- Outcome of one upsert_points call, as seen by push in qdrant.rs:
either a transport-level Err, or Ok with response.result.map(status)
(status 1 is the success status). -/
inductive UpsertOutcome where
  | err : UpsertOutcome
  | ok : Option Nat → UpsertOutcome
deriving DecidableEq, Repr

/-- Result type of push (anyhow Result of unit, collapsed to ok or err). -/
inductive PushResult where
  | ok : PushResult
  | err : PushResult
deriving DecidableEq, Repr

/-- One push call: the returned result, the successor state, and the
batches flushed to the store during the call (in buffer order). -/
structure PushStep (F32 : Type) where
  result : PushResult
  state : Qlient F32
  flushed : List (List (PointStruct F32))
deriving DecidableEq, Repr

/-- Qlient::push from qdrant.rs, lines 65-101. If the buffer holds fewer
than size entries the point is pushed at the front and Ok is returned with
no store call. Otherwise the whole buffer is drained and upserted as one
batch; the incoming document is never added to the buffer in that branch.
On Ok(response) the source computes the status match (1 gives Ok, anything
else gives Err) but discards its value inside an if-let statement and
falls through to return Ok(()); only a transport Err(e) is returned as an
error. The store oracle gives the upsert outcome for the drained batch;
uuid is the freshly generated UUIDv4 string. -/
def Qlient.push {F32 : Type} (q : Qlient F32)
    (store : List (PointStruct F32) → UpsertOutcome)
    (uuid : String) (document : Document F32) : PushStep F32 :=
  if q.buffer.length < q.size then
    { result := PushResult.ok
      state := { q with buffer := document_to_pointstruct uuid document :: q.buffer }
      flushed := [] }
  else
    let points := q.buffer
    let drained : Qlient F32 := { q with buffer := [] }
    match store points with
    | UpsertOutcome.ok res =>
        -- the status check on res is computed and discarded in the source;
        -- the discarded value is reproduced here to mirror the dead code
        let _discarded : Option PushResult :=
          res.map (fun status => if status = 1 then PushResult.ok else PushResult.err)
        { result := PushResult.ok, state := drained, flushed := [points] }
    | UpsertOutcome.err =>
        { result := PushResult.err, state := drained, flushed := [points] }

/-- Concrete sample metadata used by closed evaluation theorems. -/
def mEx : Metadata := { source := "a", content_type := "text", language := "en" }

/-- Concrete sample documents over Nat-coded vector elements. -/
def dEx1 : Document Nat := { page_content := "one", metadata := mEx, embeddings := [1] }

def dEx2 : Document Nat := { page_content := "two", metadata := mEx, embeddings := [2] }

/-- A store oracle that always reports transport success with status 1. -/
def storeOk : List (PointStruct Nat) → UpsertOutcome := fun _ => UpsertOutcome.ok (some 1)

/-- A store oracle that always reports transport success with the
non-success status 2. -/
def storeStatus2 : List (PointStruct Nat) → UpsertOutcome := fun _ => UpsertOutcome.ok (some 2)

/-- C1: with capacity 1, pushing dEx1 and then dEx2 produces exactly one
flush, covering exactly the previously buffered point for dEx1 — but the
new buffer is empty: the incoming point for dEx2 is dropped rather than
retained, so a point is lost across the flush boundary, contrary to the
claim. -/
theorem push_full_buffer_drops_incoming :
    let q0 : Qlient Nat := { buffer := [], size := 1 }
    let step1 := q0.push storeOk "u1" dEx1
    let step2 := step1.state.push storeOk "u2" dEx2
    step1.flushed = []
    ∧ step2.flushed = [[document_to_pointstruct "u1" dEx1]]
    ∧ step2.result = PushResult.ok
    ∧ step2.state.buffer = [] := by
  decide

/-- C5: with a full buffer and a store response carrying non-success
status 2, push returns Ok — the status check is discarded in the source —
while the flushed points are indeed not re-queued (the buffer ends empty). -/
theorem push_nonsuccess_status_returns_ok :
    let q0 : Qlient Nat := { buffer := [document_to_pointstruct "u1" dEx1], size := 1 }
    let step := q0.push storeStatus2 "u2" dEx2
    step.result = PushResult.ok
    ∧ step.flushed = [[document_to_pointstruct "u1" dEx1]]
    ∧ step.state.buffer = [] := by
  decide

/-- One item received from the pipeline channel: a Result of Document, as
sent by the producer in main.rs. -/
inductive RecvItem (F32 : Type) where
  | ok : Document F32 → RecvItem F32
  | err : RecvItem F32
deriving DecidableEq, Repr

/-- The four progress counters of vector_upsert_loop in main.rs, named
after the progress bars they increment. -/
structure Counters where
  processed : Nat
  errors : Nat
  embeddings : Nat
  stored : Nat
deriving DecidableEq, Repr

/-- The all-zero counters the loop starts from. -/
def Counters.zero : Counters :=
  { processed := 0, errors := 0, embeddings := 0, stored := 0 }

/-- The body of the receive loop in vector_upsert_loop (main.rs lines
115-135) for one received item: an Ok document with a non-empty embedding
vector increments the embeddings counter and is pushed to the Qlient,
incrementing stored on Ok and errors on Err; an Ok document with an empty
vector increments processed; an Err increments errors. Returns the new
client state, the new counters, and the batches flushed by this step. -/
def consume_step {F32 : Type} (store : List (PointStruct F32) → UpsertOutcome)
    (uuid : String) (q : Qlient F32) (c : Counters) :
    RecvItem F32 → Qlient F32 × Counters × List (List (PointStruct F32))
  | RecvItem.ok document =>
      if document.embeddings.isEmpty then
        (q, { c with processed := c.processed + 1 }, [])
      else
        let c1 := { c with embeddings := c.embeddings + 1 }
        let step := q.push store uuid document
        match step.result with
        | PushResult.ok => (step.state, { c1 with stored := c1.stored + 1 }, step.flushed)
        | PushResult.err => (step.state, { c1 with errors := c1.errors + 1 }, step.flushed)
  | RecvItem.err => (q, { c with errors := c.errors + 1 }, [])

/-- The receive loop of vector_upsert_loop in main.rs, over the sequence
of items the channel delivers before closing. When the channel closes the
loop simply ends (the source clears the progress bars and the worker
terminates): no tail flush of the remaining buffer is issued anywhere.
The uuids oracle supplies the UUIDv4 generated for the item at each index. -/
def vector_upsert_loop {F32 : Type} (store : List (PointStruct F32) → UpsertOutcome)
    (uuids : Nat → String) :
    List (RecvItem F32) → Nat → Qlient F32 → Counters →
    Qlient F32 × Counters × List (List (PointStruct F32))
  | [], _, q, c => (q, c, [])
  | item :: rest, i, q, c =>
      let s1 := consume_step store (uuids i) q c item
      let s2 := vector_upsert_loop store uuids rest (i + 1) s1.1 s1.2.1
      (s2.1, s2.2.1, s1.2.2 ++ s2.2.2)

/-- A uuid oracle used by closed evaluation theorems. -/
def uuidsEx : Nat → String := fun _ => "u"

/-- C2: with the default capacity 128, delivering one embedded document
and then closing the channel leaves the consumer with zero flushes issued
and the single buffered point still sitting in the buffer when the worker
terminates: the tail is lost, contrary to the claimed mandatory remainder
flush. -/
theorem channel_close_loses_tail :
    (vector_upsert_loop storeOk uuidsEx [RecvItem.ok dEx1] 0
      (Qlient.defaultState Nat) Counters.zero).2.2 = []
    ∧ (vector_upsert_loop storeOk uuidsEx [RecvItem.ok dEx1] 0
      (Qlient.defaultState Nat) Counters.zero).1.buffer = [document_to_pointstruct "u" dEx1]
    ∧ (vector_upsert_loop storeOk uuidsEx [RecvItem.ok dEx1] 0
      (Qlient.defaultState Nat) Counters.zero).2.1.stored = 1 := by
  decide

/-- C7 counterexample: delivering one embedded document to a consumer
whose buffer is far under capacity issues no store call at all (no flush),
yet the stored counter still advances to 1; the claim says a point merely
appended to the buffer must not increment stored. -/
theorem stored_increments_without_store_call :
    let run := vector_upsert_loop storeOk uuidsEx [RecvItem.ok dEx1] 0
      (Qlient.defaultState Nat) Counters.zero
    run.2.2 = [] ∧ run.2.1.stored = 1 := by
  decide

/-- C7 amended: for a received document with a non-empty vector, the
stored counter advances exactly once per push call that returns Ok —
whether the push merely appended the point with no store call (an
under-capacity push always returns Ok and flushes nothing) or it drained
a full buffer into an upsert that succeeded at the transport level (the
store-reported status being ignored) — and when the push returns Err (a
flush failing at the transport level) stored is unchanged and errors
increments instead. -/
theorem stored_counts_ok_pushes {F32 : Type}
    (store : List (PointStruct F32) → UpsertOutcome)
    (uuid : String) (q : Qlient F32) (c : Counters) (d : Document F32)
    (hne : d.embeddings.isEmpty = false) :
    ((q.push store uuid d).result = PushResult.ok →
      (consume_step store uuid q c (RecvItem.ok d)).2.1.stored = c.stored + 1
      ∧ (consume_step store uuid q c (RecvItem.ok d)).2.1.errors = c.errors)
    ∧ ((q.push store uuid d).result = PushResult.err →
      (consume_step store uuid q c (RecvItem.ok d)).2.1.stored = c.stored
      ∧ (consume_step store uuid q c (RecvItem.ok d)).2.1.errors = c.errors + 1)
    ∧ (q.buffer.length < q.size →
      (q.push store uuid d).result = PushResult.ok
      ∧ (q.push store uuid d).flushed = []) := by
  refine ⟨?_, ?_, ?_⟩
  · intro hok
    simp only [consume_step, hne, Bool.false_eq_true, if_false, hok]
    exact ⟨trivial, trivial⟩
  · intro herr
    simp only [consume_step, hne, Bool.false_eq_true, if_false, herr]
    exact ⟨trivial, trivial⟩
  · intro hlt
    simp only [Qlient.push, if_pos hlt]
    exact ⟨trivial, trivial⟩

/-- Witness for the amended C7 theorem at a concrete input exercising the
full-buffer flush case: capacity 1 with one buffered point, an incoming
embedded document, and an upsert succeeding at the transport level — the
push returns Ok and stored advances from 0 to 1 while errors stays 0. -/
theorem stored_counts_ok_pushes_witness :
    (consume_step storeOk "u2" { buffer := [document_to_pointstruct "u1" dEx1], size := 1 }
      Counters.zero (RecvItem.ok dEx2)).2.1.stored = Counters.zero.stored + 1
    ∧ (consume_step storeOk "u2" { buffer := [document_to_pointstruct "u1" dEx1], size := 1 }
      Counters.zero (RecvItem.ok dEx2)).2.1.errors = Counters.zero.errors :=
  (stored_counts_ok_pushes storeOk "u2"
    { buffer := [document_to_pointstruct "u1" dEx1], size := 1 }
    Counters.zero dEx2 (by decide)).1 (by decide)

/-- Outcome of the HTTP exchange inside LlamaCpp::embed in llama_cpp.rs:
either a transport-level failure of send() or text() (both propagated with
the question mark operator), or a received body whose serde parse into
EmbedResponse either succeeds with a list of f64 values or fails. The
source never inspects the HTTP status code, so a non-2xx response is just
a body whose parse fails. F64 is the abstract element type for f64. -/
inductive EmbedCallOutcome (F64 : Type) where
  | transportError : EmbedCallOutcome F64
  | body : Option (List F64) → EmbedCallOutcome F64
deriving DecidableEq, Repr

/-- LlamaCpp::embed from llama_cpp.rs, lines 183-204. On a transport
error the question mark operator returns Err. On a received body, a
successful parse maps every f64 component through the narrowing cast to
f32; a failed parse yields the empty vector. Either way the document is
rebuilt with its page content and metadata unchanged and the computed
vector attached. -/
def LlamaCpp.embed {F32 F64 : Type} (narrow : F64 → F32)
    (text : Document F32) (outcome : EmbedCallOutcome F64) :
    Except Unit (Document F32) :=
  match outcome with
  | EmbedCallOutcome.transportError => Except.error ()
  | EmbedCallOutcome.body parsed =>
      let embedding_32 : List F32 :=
        match parsed with
        | some response => response.map narrow
        | none => []
      Except.ok
        { page_content := text.page_content
          metadata := text.metadata
          embeddings := embedding_32 }

/-- C4 counterexample: on a transport-level failure, embed returns an
error, not the document with an empty vector: there is no document d2
with embed returning Ok d2 in that case. -/
theorem embed_transport_error_is_err :
    LlamaCpp.embed (fun n : Nat => n) dEx1 EmbedCallOutcome.transportError
      = Except.error ()
    ∧ ¬ ∃ d2 : Document Nat,
        LlamaCpp.embed (fun n : Nat => n) dEx1 EmbedCallOutcome.transportError
          = Except.ok d2 := by
  refine ⟨rfl, ?_⟩
  rintro ⟨d2, h⟩
  exact Except.noConfusion h

/-- C4 amended: when the response body fails to parse into the expected
shape (which is how a non-2xx response manifests, since the status code is
never inspected), embed returns Ok with the document unmodified except for
an empty vector; a transport-level failure of the request or of reading
the body, by contrast, is propagated as an error for that document. -/
theorem embed_parse_failure_yields_empty_vector {F32 F64 : Type}
    (narrow : F64 → F32) (d : Document F32) :
    LlamaCpp.embed narrow d (EmbedCallOutcome.body none)
      = Except.ok { page_content := d.page_content, metadata := d.metadata, embeddings := [] }
    ∧ LlamaCpp.embed narrow d EmbedCallOutcome.transportError
      = Except.error () := by
  exact ⟨rfl, rfl⟩

/-- C8: when the response parses to a vector of length L of f64 values,
embed returns Ok with the page content and metadata unchanged and an f32
vector of the same length L whose every component is the narrowing of the
corresponding f64 component. -/
theorem embed_narrows_componentwise {F32 F64 : Type}
    (narrow : F64 → F32) (d : Document F32) (v : List F64) :
    (LlamaCpp.embed narrow d (EmbedCallOutcome.body (some v))
      = Except.ok { page_content := d.page_content, metadata := d.metadata,
                    embeddings := v.map narrow })
    ∧ (v.map narrow).length = v.length
    ∧ ∀ i (h1 : i < v.length) (h2 : i < (v.map narrow).length),
        (v.map narrow).get ⟨i, h2⟩ = narrow (v.get ⟨i, h1⟩) := by
  refine ⟨rfl, List.length_map v narrow, ?_⟩
  intro i h1 h2
  simp [List.get_eq_getElem]

/-- Witness for C8 at a concrete input: the identity narrowing on Nat,
the sample document and the parsed vector [3, 4]; the component at index
0 of the returned vector is the narrowing of the parsed component 3. -/
theorem embed_narrows_componentwise_witness :
    (LlamaCpp.embed (fun n : Nat => n) dEx1 (EmbedCallOutcome.body (some [3, 4]))
      = Except.ok { page_content := dEx1.page_content, metadata := dEx1.metadata,
                    embeddings := [3, 4].map (fun n : Nat => n) })
    ∧ ([3, 4].map (fun n : Nat => n)).get ⟨0, by decide⟩
      = (fun n : Nat => n) ([3, 4].get ⟨0, by decide⟩) :=
  ⟨(embed_narrows_componentwise (fun n : Nat => n) dEx1 [3, 4]).1,
   (embed_narrows_componentwise (fun n : Nat => n) dEx1 [3, 4]).2.2 0
     (by decide) (by decide)⟩

/-- The Status enum from llama_cpp.rs. -/
inductive Status where
  | Ok : Status
  | Loading : Status
  | Error : Status
  | Unknown : Status
deriving DecidableEq, Repr

/-- await_llama from main.rs, lines 63-72, run against a finite sequence
of health_check outcomes (each an Err for a transport failure or an Ok
status). The question mark operator propagates a transport Err out of the
loop at once. A non-Ok status sleeps for the current backoff (recorded in
milliseconds) and retries with the backoff increased by 500 ms. Returns
none when the probe sequence is exhausted with the loop still running,
otherwise the Result await_llama returns together with the recorded
sleeps. -/
def await_llama : List (Except Unit Status) → Nat → Option (Except Unit (List Nat))
  | [], _ => none
  | p :: rest, dur =>
    match p with
    | Except.error e => some (Except.error e)
    | Except.ok s =>
      if s = Status.Ok then some (Except.ok [])
      else
        match await_llama rest (dur + 500) with
        | some (Except.ok sleeps) => some (Except.ok (dur :: sleeps))
        | some (Except.error e) => some (Except.error e)
        | none => none

/-- Helper: peeling one backoff step off the arithmetic sleep schedule. -/
theorem range_map_backoff_shift (k dur : Nat) :
    (List.range (k + 1)).map (fun j => dur + 500 * j)
      = dur :: (List.range k).map (fun j => (dur + 500) + 500 * j) := by
  rw [List.range_succ_eq_map, List.map_cons, List.map_map]
  have hf : ((fun j => dur + 500 * j) ∘ Nat.succ) = (fun j => (dur + 500) + 500 * j) := by
    funext j
    simp [Nat.mul_succ, Function.comp]
    ring
  rw [hf]
  simp

/-- Helper: when await_llama succeeds over pure statuses, the first Ok
status sits at some index k, every earlier probe is non-Ok, and the
recorded sleeps are exactly the arithmetic backoff schedule of length k. -/
theorem await_llama_ok_shape :
    ∀ (ps : List Status) (dur : Nat) (sleeps : List Nat),
      await_llama (ps.map Except.ok) dur = some (Except.ok sleeps) →
      ∃ k, k < ps.length
        ∧ ps.getD k Status.Unknown = Status.Ok
        ∧ (∀ j, j < k → ps.getD j Status.Unknown ≠ Status.Ok)
        ∧ sleeps = (List.range k).map (fun j => dur + 500 * j) := by
  intro ps
  induction ps with
  | nil =>
      intro dur sleeps h
      simp [await_llama] at h
  | cons s rest ih =>
      intro dur sleeps h
      by_cases hs : s = Status.Ok
      · refine ⟨0, Nat.succ_pos _, ?_, ?_, ?_⟩
        · simp [hs]
        · intro j hj
          exact absurd hj (Nat.not_lt_zero j)
        · simp [await_llama, hs] at h
          rw [h]
          simp
      · simp only [List.map_cons, await_llama, hs, if_false] at h
        cases hrec : await_llama (rest.map Except.ok) (dur + 500) with
        | none => rw [hrec] at h; exact absurd h (by simp)
        | some r =>
            cases r with
            | error e => rw [hrec] at h; exact absurd h (by simp)
            | ok sl =>
                rw [hrec] at h
                have hsl : sleeps = dur :: sl := by
                  have := Option.some.inj h
                  exact (Except.ok.inj this).symm
                obtain ⟨k, hk, hok, hpre, hform⟩ := ih (dur + 500) sl hrec
                refine ⟨k + 1, Nat.succ_lt_succ hk, ?_, ?_, ?_⟩
                · simpa using hok
                · intro j hj
                  cases j with
                  | zero => simpa using hs
                  | succ j' =>
                      have hj' : j' < k := Nat.lt_of_succ_lt_succ hj
                      simpa using hpre j' hj'
                · rw [hsl, hform, range_map_backoff_shift]

/-- C9: over any finite sequence of probe statuses, await_llama returns
success only when some probe reports Ok; it sleeps exactly once per
preceding non-Ok probe, for the current backoff, which starts at the given
initial duration and grows by 500 ms per iteration — so the recorded sleep
durations are pairwise non-decreasing. In particular, for the probe
results Loading, Loading, Ok with the 7000 ms initial backoff of main.rs,
exactly two sleeps occur, of 7000 ms and then 7500 ms. -/
theorem await_llama_backoff_spec :
    (∀ (ps : List Status) (dur : Nat) (sleeps : List Nat),
        await_llama (ps.map Except.ok) dur = some (Except.ok sleeps) →
        ∃ k, k < ps.length
          ∧ ps.getD k Status.Unknown = Status.Ok
          ∧ (∀ j, j < k → ps.getD j Status.Unknown ≠ Status.Ok)
          ∧ sleeps = (List.range k).map (fun j => dur + 500 * j)
          ∧ List.Pairwise (fun a b => a ≤ b) sleeps)
    ∧ await_llama ([Status.Loading, Status.Loading, Status.Ok].map Except.ok) 7000
        = some (Except.ok [7000, 7500]) := by
  constructor
  · intro ps dur sleeps h
    obtain ⟨k, hk, hok, hpre, hform⟩ := await_llama_ok_shape ps dur sleeps h
    refine ⟨k, hk, hok, hpre, hform, ?_⟩
    rw [hform]
    refine List.Pairwise.map _ ?_ (List.pairwise_lt_range k)
    intro a b hab
    have : 500 * a ≤ 500 * b := Nat.mul_le_mul_left 500 (Nat.le_of_lt hab)
    omega
  · rfl

/-- Witness for C9 at the probe results Loading, Ok with initial backoff
7000 ms: the recorded sleeps are exactly the single 7000 ms backoff. -/
theorem await_llama_backoff_spec_witness :
    ∃ k, k < [Status.Loading, Status.Ok].length
      ∧ [Status.Loading, Status.Ok].getD k Status.Unknown = Status.Ok
      ∧ (∀ j, j < k → [Status.Loading, Status.Ok].getD j Status.Unknown ≠ Status.Ok)
      ∧ [7000] = (List.range k).map (fun j => 7000 + 500 * j)
      ∧ List.Pairwise (fun a b => a ≤ b) [7000] :=
  await_llama_backoff_spec.1 [Status.Loading, Status.Ok] 7000 [7000] (by rfl)

/-- The producer side of main in main.rs, lines 40-49: main awaits
await_llama but discards its Result (the call on line 40 neither uses a
question mark nor binds the value), then embeds every document in order
and sends each Result onto the channel. The model returns none only when
await_llama itself never returns within the observed probe sequence
(the readiness loop still spinning); in every other case — including an
Err from await_llama — main proceeds to the embed-and-send loop. The
oracle gives the embed call outcome for the document at each index. -/
def main_sends {F32 F64 : Type} (narrow : F64 → F32)
    (probes : List (Except Unit Status))
    (oracle : Nat → EmbedCallOutcome F64)
    (documents : List (Document F32)) : Option (List (RecvItem F32)) :=
  match await_llama probes 7000 with
  | none => none
  | some _health =>
      -- the Ok or Err carried by _health is dropped by the source
      some (documents.enum.map (fun pair =>
        match LlamaCpp.embed narrow pair.2 (oracle pair.1) with
        | Except.ok embedded => RecvItem.ok embedded
        | Except.error _ => RecvItem.err))

/-- C3: when the very first health probe fails at the transport level,
await_llama does return that error immediately — but main discards it and
still embeds and sends the document: the send list is produced and
non-empty, so the process does not stop before documents are embedded and
pushed, contrary to the claim. -/
theorem probe_transport_error_does_not_abort :
    await_llama [Except.error ()] 7000 = some (Except.error ())
    ∧ main_sends (fun n : Nat => n) [Except.error ()]
        (fun _ => EmbedCallOutcome.body none) [dEx1]
      = some [RecvItem.ok { page_content := dEx1.page_content,
                            metadata := dEx1.metadata, embeddings := [] }]
    ∧ ∀ sends, main_sends (fun n : Nat => n) [Except.error ()]
        (fun _ => EmbedCallOutcome.body none) [dEx1] = some sends → sends ≠ [] := by
  refine ⟨rfl, rfl, ?_⟩
  intro sends h
  rw [Option.some.inj h.symm]
  simp

/-- read_documents from main.rs, lines 142-156, over the sequence of
lines read from the file: each line that parses to a Document is pushed
at the front of the deque, and a line that fails to parse is skipped
without ending the read. The serde parse is the oracle parameter. -/
def read_documents {F32 : Type} (parse : String → Option (Document F32))
    (lines : List String) : List (Document F32) :=
  lines.foldl (fun vec k =>
    match parse k with
    | some doc => doc :: vec
    | none => vec) []

/-- Helper: the folded deque is the reversed list of parse successes,
prepended to the accumulator. -/
theorem read_documents_foldl_shape {F32 : Type}
    (parse : String → Option (Document F32)) :
    ∀ (lines : List String) (acc : List (Document F32)),
      lines.foldl (fun vec k =>
        match parse k with
        | some doc => doc :: vec
        | none => vec) acc
      = (lines.filterMap parse).reverse ++ acc := by
  intro lines
  induction lines with
  | nil => intro acc; simp
  | cons l rest ih =>
      intro acc
      cases hl : parse l with
      | none => simp [List.foldl_cons, hl, ih, List.filterMap_cons]
      | some doc =>
          simp only [List.foldl_cons, hl, List.filterMap_cons]
          rw [ih (doc :: acc)]
          simp

/-- C10: read_documents returns exactly the successfully parsed lines in
reverse line order (lines that fail to parse are skipped without aborting
the read), so the producer iterates the documents — front to back — in
the reverse of their order in the input file. -/
theorem read_documents_reverses_parsed_lines {F32 : Type}
    (parse : String → Option (Document F32)) (lines : List String) :
    read_documents parse lines = (lines.filterMap parse).reverse := by
  rw [read_documents, read_documents_foldl_shape parse lines []]
  simp

/-- Modelled shape of the qdrant VectorsConfig parameter — the vector
dimensionality and distance metric of a collection. The source in main.rs
never constructs one. -/
structure VectorsConfig where
  size : Nat
  distance : String
deriving DecidableEq, Repr

/-- The CreateCollection argument shape from the qdrant client, with the
fields the source lists in main.rs lines 82-97 (option payloads not
relevant to any claim are collapsed to Option Unit). -/
structure CreateCollection where
  collection_name : String
  hnsw_config : Option Unit
  wal_config : Option Unit
  optimizers_config : Option Unit
  shard_number : Option Nat
  on_disk_payload : Option Bool
  timeout : Option Nat
  vectors_config : Option VectorsConfig
  replication_factor : Option Nat
  write_consistency_factor : Option Nat
  init_from_collection : Option String
  quantization_config : Option Unit
  sharding_method : Option Unit
  sparse_vectors_config : Option Unit
deriving DecidableEq, Repr

/-- The CreateCollection value built in vector_upsert_loop (main.rs lines
82-97) when the collection is absent: every field except the collection
name is None. -/
def main_create_collection : CreateCollection :=
  { collection_name := "rust2"
    hnsw_config := none
    wal_config := none
    optimizers_config := none
    shard_number := none
    on_disk_payload := none
    timeout := none
    vectors_config := none
    replication_factor := none
    write_consistency_factor := none
    init_from_collection := none
    quantization_config := none
    sharding_method := none
    sparse_vectors_config := none }

/-- C6: the collection-creation call issued for the absent collection
passes no vectors configuration at all — vectors_config is None, so the
vector dimensionality and distance metric are left unspecified, contrary
to the claim that they are supplied explicitly. -/
theorem create_collection_leaves_vectors_config_unset :
    main_create_collection.collection_name = "rust2"
    ∧ main_create_collection.vectors_config = none := by
  exact ⟨rfl, rfl⟩
